import Mathlib

/-!
Verification of the carrier classification and tracking orchestration engine
(`backend/carrier_detector.py`, `backend/trackers/*.py`, `backend/scheduler.py`,
`backend/routers/packages.py`).

Strings are modelled with Lean `String`/`List Char`; Python `str.upper`/`str.lower`
are modelled by their ASCII case mapping (every string appearing in the registry,
the routing prefixes and the delivery vocabulary is handled exactly).  Python
dictionaries produced by the adapters are modelled as records whose optional
fields are `Option`-valued, matching `dict.get` semantics.
-/

/-! ## Character and string helpers (models of the Python builtins used) -/

/-- The characters stripped by Python `str.strip()`: exactly those with
`str.isspace()` true — the ASCII whitespace `\t\n\v\f\r` and space, the
separators U+001C–U+001F, NEL U+0085, NBSP U+00A0, OGHAM SPACE U+1680, the
space separators U+2000–U+200A, LINE/PARAGRAPH SEPARATOR U+2028/U+2029,
NARROW NBSP U+202F, MEDIUM MATHEMATICAL SPACE U+205F and IDEOGRAPHIC SPACE
U+3000. -/
def isPyWhitespace (c : Char) : Bool :=
  (9 ≤ c.toNat && c.toNat ≤ 13) || (28 ≤ c.toNat && c.toNat ≤ 32) ||
    c.toNat == 0x85 || c.toNat == 0xA0 || c.toNat == 0x1680 ||
    (0x2000 ≤ c.toNat && c.toNat ≤ 0x200A) || c.toNat == 0x2028 ||
    c.toNat == 0x2029 || c.toNat == 0x202F || c.toNat == 0x205F ||
    c.toNat == 0x3000

/-- Python `str.strip()` on a character list: drop whitespace from both ends. -/
def pyStrip (l : List Char) : List Char :=
  ((l.dropWhile isPyWhitespace).reverse.dropWhile isPyWhitespace).reverse

/-- Python `str.upper()` on one character (ASCII case mapping). -/
def upperChar (c : Char) : Char :=
  if 97 ≤ c.toNat ∧ c.toNat ≤ 122 then Char.ofNat (c.toNat - 32) else c

/-- Python `str.lower()` on one character (ASCII case mapping). -/
def lowerChar (c : Char) : Char :=
  if 65 ≤ c.toNat ∧ c.toNat ≤ 90 then Char.ofNat (c.toNat + 32) else c

/-- `startsWithChars pre l` is Python `l.startswith(pre)` on character lists. -/
def startsWithChars : List Char → List Char → Bool
  | [], _ => true
  | _ :: _, [] => false
  | c :: cs, d :: ds => c == d && startsWithChars cs ds

/-- `containsChars needle hay` is Python `needle in hay` (substring test). -/
def containsChars (needle : List Char) : List Char → Bool
  | [] => needle.isEmpty
  | d :: ds => startsWithChars needle (d :: ds) || containsChars needle ds

/-! ## Normalizer (`normalize_tracking_number`, carrier_detector.py:173-187) -/

/--
`normalize_tracking_number`: `if not tracking_number: return ""` then
`tracking_number.strip().upper().replace(" ", "").replace("-", "")`.
`str.replace` with a single-character pattern and empty replacement removes
every occurrence of that character, i.e. a filter.
-/
def normalizeTrackingNumber (trackingNumber : String) : String :=
  if trackingNumber = "" then ""
  else
    ⟨(((pyStrip trackingNumber.data).map upperChar).filter
        (fun c => c ≠ ' ')).filter (fun c => c ≠ '-')⟩

/-! ## Pattern matchers

Each regex of `CARRIER_PATTERNS` is fully anchored (`^...$`), so `re.match`
accepts exactly the strings in the regex's language; each matcher below decides
that language on the normalized string. -/

def isUpperAlpha (c : Char) : Bool := 65 ≤ c.toNat && c.toNat ≤ 90

def isDigitChar (c : Char) : Bool := 48 ≤ c.toNat && c.toNat ≤ 57

def isUpperAlnum (c : Char) : Bool := isUpperAlpha c || isDigitChar c

/-- `^[A-Z]{2}\d{9}JP$` (Japan Post). -/
def matchJppost (s : String) : Bool :=
  s.data.length == 13 && (s.data.take 2).all isUpperAlpha &&
    ((s.data.drop 2).take 9).all isDigitChar && (s.data.drop 11) == ['J', 'P']

/-- `^1Z[A-Z0-9]{16}$` (UPS). -/
def matchUps (s : String) : Bool :=
  s.data.length == 18 && (s.data.take 2) == ['1', 'Z'] && (s.data.drop 2).all isUpperAlnum

/-- The two-letter China Post service indicators of the alternation
`(RB|RC|RA|CP|LZ|LM|LO|EA|EB|EC|ED|EE|EF|EG|EH|EI|EJ|EK|EL|EM|ZC)`. -/
def chinapostPrefixes : List (List Char) :=
  [['R','B'], ['R','C'], ['R','A'], ['C','P'], ['L','Z'], ['L','M'], ['L','O'],
   ['E','A'], ['E','B'], ['E','C'], ['E','D'], ['E','E'], ['E','F'], ['E','G'],
   ['E','H'], ['E','I'], ['E','J'], ['E','K'], ['E','L'], ['E','M'], ['Z','C']]

/-- `^(RB|RC|...|ZC)[A-Z0-9]{9,}(CN)?$` (China Post).  Since `C` and `N` are in
`[A-Z0-9]`, a tail accepted with the optional `CN` group is also accepted by
`[A-Z0-9]{9,}` alone, so the language is: a listed two-letter indicator followed
by at least nine characters from `[A-Z0-9]`. -/
def matchChinapost (s : String) : Bool :=
  chinapostPrefixes.any (fun p => p == s.data.take 2) &&
    9 ≤ (s.data.drop 2).length && (s.data.drop 2).all isUpperAlnum

/-- `^\d{lo,hi}$` (digit strings with bounded length); length patterns such as
`^\d{12}$` are the `lo = hi` case. -/
def matchDigitSpan (lo hi : Nat) (s : String) : Bool :=
  lo ≤ s.data.length && s.data.length ≤ hi && s.data.all isDigitChar

def matchFedex12 (s : String) : Bool := matchDigitSpan 12 12 s

def matchFedex15 (s : String) : Bool := matchDigitSpan 15 15 s

def matchDhl (s : String) : Bool := matchDigitSpan 10 11 s

def matchSagawa (s : String) : Bool := matchDigitSpan 10 12 s

/-- `^\d{10,13}$`, the single pattern shared by all six Korean carrier rules. -/
def matchKrDomestic (s : String) : Bool := matchDigitSpan 10 13 s

/-! ## Registry data model (carrier_detector.py:13-170) -/

/-- One entry of a rule's `patterns` list: `type`, `regex` (embedded as the
decidable matcher `test`) and `description`. -/
structure MatchPattern where
  type : String
  test : String → Bool
  description : String

/-- One entry of `CARRIER_PATTERNS`: `carrier`, `name`, `priority`, `patterns`. -/
structure CarrierRule where
  carrier : String
  name : String
  priority : Int
  patterns : List MatchPattern

/-- The carrier pattern registry, in registration order (carrier_detector.py:13-170). -/
def CARRIER_PATTERNS : List CarrierRule :=
  [ { carrier := "global.jppost", name := "Japan Post", priority := 10,
      patterns := [{ type := "suffix", test := matchJppost,
                     description := "Ends with JP (e.g., EN123456789JP)" }] },
    { carrier := "global.ups", name := "UPS", priority := 9,
      patterns := [{ type := "prefix", test := matchUps,
                     description := "Starts with 1Z, 18 chars total" }] },
    { carrier := "global.chinapost", name := "China Post", priority := 9,
      patterns := [{ type := "prefix", test := matchChinapost,
                     description := "Starts with specific China Post prefixes" }] },
    { carrier := "global.fedex", name := "FedEx", priority := 6,
      patterns := [{ type := "length", test := matchFedex12, description := "12 digits" },
                   { type := "length", test := matchFedex15, description := "15 digits" }] },
    { carrier := "global.dhl", name := "DHL", priority := 5,
      patterns := [{ type := "length", test := matchDhl, description := "10-11 digits" }] },
    { carrier := "global.sagawa", name := "Sagawa Express", priority := 4,
      patterns := [{ type := "length", test := matchSagawa, description := "10-12 digits" }] },
    { carrier := "kr.cj", name := "CJ Logistics", priority := 3,
      patterns := [{ type := "length", test := matchKrDomestic,
                     description := "10-13 digits (Korean domestic)" }] },
    { carrier := "kr.hanjin", name := "Hanjin", priority := 3,
      patterns := [{ type := "length", test := matchKrDomestic,
                     description := "10-13 digits (Korean domestic)" }] },
    { carrier := "kr.epost", name := "Korea Post", priority := 3,
      patterns := [{ type := "length", test := matchKrDomestic,
                     description := "10-13 digits (Korean domestic)" }] },
    { carrier := "kr.lotte", name := "Lotte", priority := 3,
      patterns := [{ type := "length", test := matchKrDomestic,
                     description := "10-13 digits (Korean domestic)" }] },
    { carrier := "kr.kdexp", name := "KD Express", priority := 3,
      patterns := [{ type := "length", test := matchKrDomestic,
                     description := "10-13 digits (Korean domestic)" }] },
    { carrier := "kr.cjlogistics", name := "CJ Logistics (Alternative)", priority := 3,
      patterns := [{ type := "length", test := matchKrDomestic,
                     description := "10-13 digits (Korean domestic)" }] } ]

/-- `add_carrier_pattern` (carrier_detector.py:298-322): append a one-pattern rule. -/
def addCarrierPattern (registry : List CarrierRule) (carrierId name : String)
    (priority : Int) (test : String → Bool) (patternType description : String) :
    List CarrierRule :=
  registry ++ [{ carrier := carrierId, name := name, priority := priority,
                 patterns := [{ type := patternType, test := test,
                                description := description }] }]

/-! ## Classifier (`detect_carrier`, carrier_detector.py:190-244) -/

/-- `_determine_confidence` (carrier_detector.py:247-267). -/
def determineConfidence (priority : Int) (patternType : String) : String :=
  if 9 ≤ priority ∧ (patternType = "suffix" ∨ patternType = "prefix") then "high"
  else if 5 ≤ priority ∨ patternType = "prefix" then "medium"
  else "low"

/-- The result dictionary of `detect_carrier`; absent keys are `none`. -/
structure DetectionResult where
  carrier : Option String
  confidence : String
  patternMatched : Option String
  trackingNumber : String
  error : Option String
deriving DecidableEq

/-- Stable insertion into a list sorted by descending priority: the inserted,
earlier-registered rule goes before every rule of equal priority. -/
def insertDesc (x : CarrierRule) : List CarrierRule → List CarrierRule
  | [] => [x]
  | y :: ys => if y.priority ≤ x.priority then x :: y :: ys else y :: insertDesc x ys

/-- `sorted(CARRIER_PATTERNS, key=lambda x: x["priority"], reverse=True)`:
Python's sort is stable, and `reverse=True` keeps equal keys in registration
order, which this insertion sort reproduces. -/
def sortRules : List CarrierRule → List CarrierRule
  | [] => []
  | x :: xs => insertDesc x (sortRules xs)

/-- The nested matching loops of `detect_carrier` (carrier_detector.py:222-236):
for each rule in order, for each of its patterns in declared order, return the
first rule/pattern whose regex matches. -/
def firstMatchPair (s : String) : List CarrierRule → Option (CarrierRule × MatchPattern)
  | [] => none
  | r :: rs =>
    match r.patterns.find? (fun p => p.test s) with
    | some p => some (r, p)
    | none => firstMatchPair s rs

/-- `detect_carrier` (carrier_detector.py:190-244). -/
def detectCarrier (registry : List CarrierRule) (trackingNumber : String) :
    DetectionResult :=
  let normalized := normalizeTrackingNumber trackingNumber
  if normalized.length < 5 then
    { carrier := none, confidence := "none", patternMatched := none,
      trackingNumber := trackingNumber,
      error := some "Tracking number too short (minimum 5 characters)" }
  else
    match firstMatchPair normalized (sortRules registry) with
    | some (rule, pat) =>
      { carrier := some rule.carrier,
        confidence := determineConfidence rule.priority pat.type,
        patternMatched := some pat.description,
        trackingNumber := trackingNumber, error := none }
    | none =>
      { carrier := none, confidence := "none", patternMatched := none,
        trackingNumber := trackingNumber, error := none }

/-- A rule matches a normalized string when one of its patterns does. -/
def ruleMatches (r : CarrierRule) (s : String) : Bool :=
  (r.patterns.find? (fun p => p.test s)).isSome

/-- Reference selection function for the priority ordering: scan the registry in
registration order keeping the best candidate, where a later rule replaces the
current best only with strictly greater priority (so the highest-priority
matching rule wins and ties go to the earliest-registered one). -/
def mergeCand (x : CarrierRule) (s : String)
    (o : Option (CarrierRule × MatchPattern)) : Option (CarrierRule × MatchPattern) :=
  match x.patterns.find? (fun p => p.test s) with
  | none => o
  | some p =>
    match o with
    | none => some (x, p)
    | some (b, q) => if x.priority < b.priority then some (b, q) else some (x, p)

/-- The best matching rule/pattern of a registry for a normalized string:
highest priority, earliest registered among equal priorities, first matching
pattern within the winning rule. -/
def bestMatch (s : String) : List CarrierRule → Option (CarrierRule × MatchPattern)
  | [] => none
  | r :: rs => mergeCand r s (bestMatch s rs)

/-! ## Adapter dispatch (`trackers/global_scraper.py`, `trackers/kr_adapter.py`,
and the prefix routing in `routers/packages.py` / `scheduler.py`) -/

/-- The result dictionary returned by every tracking adapter; keys that a given
code path omits are `none` (`dict.get` semantics). -/
structure TrackResult where
  success : Bool
  carrier : Option String
  trackingNumber : Option String
  status : Option String
  error : Option String
deriving DecidableEq

/-- The network-reaching scrapers of `GlobalScraper` (`track_ups`,
`track_chinapost`, `track_jppost`, `track_sagawa`) perform browser I/O, so they
are modelled as unconstrained oracle functions from tracking number to result. -/
structure GlobalOracles where
  ups : String → TrackResult
  chinapost : String → TrackResult
  jppost : String → TrackResult
  sagawa : String → TrackResult

/-- `track_global` (global_scraper.py:344-378): per-carrier dispatch within the
international group.  `track_fedex` and `track_dhl` (global_scraper.py:74-106)
return their deterministic not-yet-implemented failure without any I/O, so they
are inlined; the remaining carriers call their oracle. -/
def trackGlobal (o : GlobalOracles) (carrier trackingNumber : String) : TrackResult :=
  if carrier = "global.ups" then o.ups trackingNumber
  else if carrier = "global.fedex" then
    { success := false, error := some "FedEx scraper not yet implemented",
      carrier := some "global.fedex", trackingNumber := some trackingNumber,
      status := none }
  else if carrier = "global.dhl" then
    { success := false, error := some "DHL scraper not yet implemented",
      carrier := some "global.dhl", trackingNumber := some trackingNumber,
      status := none }
  else if carrier = "global.chinapost" then o.chinapost trackingNumber
  else if carrier = "global.jppost" then o.jppost trackingNumber
  else if carrier = "global.sagawa" then o.sagawa trackingNumber
  else
    { success := false, error := some ("Unsupported carrier: " ++ carrier),
      carrier := some carrier, trackingNumber := some trackingNumber,
      status := none }

/-- The external collaborators of one dispatch: the Korean GraphQL adapter
(`track_kr`, also network I/O) and the global scrapers. -/
structure Oracles where
  kr : String → String → TrackResult
  glob : GlobalOracles

/-- The prefix routing used by `create_package` (routers/packages.py:52-57):
`kr.` goes to `track_kr`, `global.` to `track_global`, anything else yields the
deterministic `{"success": False, "error": "Unknown carrier prefix"}`. -/
def dispatchTrack (o : Oracles) (carrier trackingNumber : String) : TrackResult :=
  if startsWithChars "kr.".data carrier.data then o.kr carrier trackingNumber
  else if startsWithChars "global.".data carrier.data then
    trackGlobal o.glob carrier trackingNumber
  else
    { success := false, error := some "Unknown carrier prefix",
      carrier := none, trackingNumber := none, status := none }

/-! ## Batch refresh loops (routers/packages.py:132-185 and scheduler.py:24-106) -/

/-- The fields of a tracked package read by the refresh loops. -/
structure Package where
  trackingNumber : String
  carrier : String
  status : Option String
  notifyEnabled : Bool
  aliasName : Option String
deriving DecidableEq

/-- `package.carrier.startswith("kr.") / ("global.")`: the package routes to an
adapter group. -/
def knownCarrier (p : Package) : Bool :=
  startsWithChars "kr.".data p.carrier.data ||
    startsWithChars "global.".data p.carrier.data

/-- The observable behaviour of processing one package, abstracting the adapter
call together with the persistence write:
  * `succeeds st` — the adapter returned `success=True` with `"status"` key `st`
    (`none` models a missing key, read back as `"Unknown"`), and the
    `update_package_status` write completed;
  * `fails err` — the adapter returned `success=False` with `"error"` key `err`
    (`none` is read back as `"Unknown error"`);
  * `raises msg` — an exception escaped the body (adapter or persistence) and
    was caught by the per-package `except` handler.
Exceptions are modelled as occurring before the persistence write completes. -/
inductive PkgBehavior where
  | succeeds (status : Option String)
  | fails (err : Option String)
  | raises (msg : String)
deriving DecidableEq

/-- `True` when the loop counts the package as failed rather than succeeded. -/
def behaviorFails : PkgBehavior → Bool
  | .succeeds _ => false
  | .fails _ => true
  | .raises _ => true

/-- The notification intents of `notifications.py`: `notify_delivery_complete`,
`notify_status_change`, `notify_error`. -/
inductive Intent where
  | delivered (trackingNumber carrier : String) (aliasName : Option String)
  | statusChanged (trackingNumber carrier oldStatus newStatus : String)
      (aliasName : Option String)
  | errorNote (trackingNumber carrier message : String) (aliasName : Option String)
deriving DecidableEq

/-- `"delivered" in new_status.lower() or "배달완료" in new_status`
(scheduler.py:68). -/
def isDeliveredStatus (newStatus : String) : Bool :=
  containsChars "delivered".data (newStatus.data.map lowerChar) ||
    containsChars "배달완료".data newStatus.data

/-- How the per-package loop classifies one package. -/
inductive ItemClass where
  | succeededC
  | failedC
  | skippedC
deriving DecidableEq

/-- What processing one package does in the on-demand endpoint
(`refresh_all_packages`, routers/packages.py:150-183): a status write on
success, an error entry on every failure (including unknown prefixes and
caught exceptions), and never a notification. -/
structure RouterOut where
  write : Option (String × String)
  errEntry : Option (String × String)
  intent : Option Intent
  cls : ItemClass
deriving DecidableEq

/-- One iteration of the endpoint loop (routers/packages.py:150-183).  The loop
body calls no notification function, so `intent` is always `none`. -/
def routerStep (p : Package) (b : PkgBehavior) : RouterOut :=
  if knownCarrier p then
    match b with
    | .succeeds st =>
      { write := some (p.trackingNumber, st.getD "Unknown"), errEntry := none,
        intent := none, cls := .succeededC }
    | .fails e =>
      { write := none, errEntry := some (p.trackingNumber, e.getD "Unknown error"),
        intent := none, cls := .failedC }
    | .raises m =>
      { write := none, errEntry := some (p.trackingNumber, m),
        intent := none, cls := .failedC }
  else
    { write := none, errEntry := some (p.trackingNumber, "Unknown carrier prefix"),
      intent := none, cls := .failedC }

/-- What processing one package does in the scheduled run. -/
structure SchedOut where
  write : Option (String × String)
  intent : Option Intent
  cls : ItemClass
deriving DecidableEq

/-- One iteration of the scheduled loop (scheduler.py:39-99): unknown prefixes
are skipped with `continue` (not counted); on success the status is written and
then the change/notification policy runs; on adapter failure `notify_error`
fires when `notify_enabled`; a caught exception only increments the error
count. -/
def schedulerStep (p : Package) (b : PkgBehavior) : SchedOut :=
  if knownCarrier p then
    match b with
    | .succeeds st =>
      let newStatus := st.getD "Unknown"
      let intent : Option Intent :=
        match p.status with
        | some oldStatus =>
          if oldStatus ≠ "" ∧ oldStatus ≠ newStatus ∧ p.notifyEnabled then
            if isDeliveredStatus newStatus then
              some (.delivered p.trackingNumber p.carrier p.aliasName)
            else
              some (.statusChanged p.trackingNumber p.carrier oldStatus newStatus
                p.aliasName)
          else none
        | none => none
      { write := some (p.trackingNumber, newStatus), intent := intent,
        cls := .succeededC }
    | .fails e =>
      { write := none,
        intent := if p.notifyEnabled then
            some (.errorNote p.trackingNumber p.carrier (e.getD "Unknown error")
              p.aliasName)
          else none,
        cls := .failedC }
    | .raises _ => { write := none, intent := none, cls := .failedC }
  else { write := none, intent := none, cls := .skippedC }

/-- The report dictionary built by the endpoint (routers/packages.py:143-148):
`{"total": ..., "success": ..., "failed": ..., "errors": [...]}`. -/
structure RefreshReport where
  total : Nat
  success : Nat
  failed : Nat
  errors : List (String × String)
deriving DecidableEq

def routerSuccessCount (oracle : Package → PkgBehavior) : List Package → Nat
  | [] => 0
  | p :: ps =>
    (if (routerStep p (oracle p)).cls = ItemClass.succeededC then 1 else 0) +
      routerSuccessCount oracle ps

def routerFailedCount (oracle : Package → PkgBehavior) : List Package → Nat
  | [] => 0
  | p :: ps =>
    (if (routerStep p (oracle p)).cls = ItemClass.failedC then 1 else 0) +
      routerFailedCount oracle ps

def routerErrors (oracle : Package → PkgBehavior) : List Package → List (String × String)
  | [] => []
  | p :: ps =>
    match (routerStep p (oracle p)).errEntry with
    | some e => e :: routerErrors oracle ps
    | none => routerErrors oracle ps

/-- The endpoint `refresh_all_packages` (routers/packages.py:132-185), with the
per-package behaviour supplied by the oracle. -/
def refreshAllRouter (oracle : Package → PkgBehavior) (packages : List Package) :
    RefreshReport :=
  { total := packages.length,
    success := routerSuccessCount oracle packages,
    failed := routerFailedCount oracle packages,
    errors := routerErrors oracle packages }

def routerWrites (oracle : Package → PkgBehavior) : List Package → List (String × String)
  | [] => []
  | p :: ps =>
    match (routerStep p (oracle p)).write with
    | some w => w :: routerWrites oracle ps
    | none => routerWrites oracle ps

def routerIntents (oracle : Package → PkgBehavior) : List Package → List Intent
  | [] => []
  | p :: ps =>
    match (routerStep p (oracle p)).intent with
    | some i => i :: routerIntents oracle ps
    | none => routerIntents oracle ps

def routerClasses (oracle : Package → PkgBehavior) : List Package → List ItemClass
  | [] => []
  | p :: ps => (routerStep p (oracle p)).cls :: routerClasses oracle ps

def schedulerWrites (oracle : Package → PkgBehavior) : List Package → List (String × String)
  | [] => []
  | p :: ps =>
    match (schedulerStep p (oracle p)).write with
    | some w => w :: schedulerWrites oracle ps
    | none => schedulerWrites oracle ps

def schedulerIntents (oracle : Package → PkgBehavior) : List Package → List Intent
  | [] => []
  | p :: ps =>
    match (schedulerStep p (oracle p)).intent with
    | some i => i :: schedulerIntents oracle ps
    | none => schedulerIntents oracle ps

def schedulerClasses (oracle : Package → PkgBehavior) : List Package → List ItemClass
  | [] => []
  | p :: ps => (schedulerStep p (oracle p)).cls :: schedulerClasses oracle ps

/-! ## Scheduler state machine (scheduler.py:108-145)

`BackgroundScheduler` is an external APScheduler object; the parts the wrappers
rely on are modelled explicitly: `running`, `add_job(..., id=...,
replace_existing=True)` (drop any job with the same id, then append),
`shutdown()` (stop and clear the in-memory job store), and `get_jobs()`. -/

structure Job where
  id : String
  name : String
  intervalHours : Nat
deriving DecidableEq

structure SchedState where
  running : Bool
  jobs : List Job
deriving DecidableEq

/-- The module-level `BackgroundScheduler()` before any call: not running, no jobs. -/
def initialSchedState : SchedState := { running := false, jobs := [] }

/-- `start_scheduler` (scheduler.py:108-124): guarded by
`if not scheduler.running`, so it only installs the job and starts when the
scheduler is stopped; when already running it does nothing. -/
def startScheduler (intervalHours : Nat) (s : SchedState) : SchedState :=
  if s.running then s
  else
    { running := true,
      jobs := (s.jobs.filter (fun j => j.id ≠ "refresh_packages")) ++
        [{ id := "refresh_packages",
           name := "Refresh all package tracking statuses",
           intervalHours := intervalHours }] }

/-- `stop_scheduler` (scheduler.py:126-130): `shutdown()` when running (which
also empties the in-memory job store); a no-op otherwise. -/
def stopScheduler (s : SchedState) : SchedState :=
  if s.running then { running := false, jobs := [] } else s

/-- The dictionary returned by `get_scheduler_status` (scheduler.py:132-145);
`next_run_time` is abstracted to the job's interval while running and `none`
otherwise. -/
structure SchedStatus where
  running : Bool
  jobs : List (String × String × Option Nat)
deriving DecidableEq

def getSchedulerStatus (s : SchedState) : SchedStatus :=
  { running := s.running,
    jobs := s.jobs.map (fun j =>
      (j.id, j.name, if s.running then some j.intervalHours else none)) }

/-- The externally reachable operations on the scheduler singleton. -/
inductive SchedOp where
  | start (intervalHours : Nat)
  | stop
deriving DecidableEq

def applySchedOp (s : SchedState) : SchedOp → SchedState
  | .start i => startScheduler i s
  | .stop => stopScheduler s

/-- The state after a sequence of start/stop calls from process start. -/
def runSchedOps (ops : List SchedOp) : SchedState :=
  ops.foldl applySchedOp initialSchedState

/-- A closed set of adapter oracles used to instantiate theorems at concrete
inputs (every call reports a connection failure, the shape `track_kr` produces
when the tracker service is unreachable). -/
def offlineResult : TrackResult :=
  { success := false, carrier := none, trackingNumber := none, status := none,
    error := some "Failed to connect to tracker service" }

def offlineOracles : Oracles :=
  { kr := fun _ _ => offlineResult,
    glob := { ups := fun _ => offlineResult, chinapost := fun _ => offlineResult,
              jppost := fun _ => offlineResult, sagawa := fun _ => offlineResult } }

/-- Three concrete packages used to instantiate the batch-loop theorems. -/
def samplePackages : List Package :=
  [ { trackingNumber := "A1", carrier := "kr.cj", status := some "In Transit",
      notifyEnabled := true, aliasName := none },
    { trackingNumber := "B1", carrier := "global.ups", status := none,
      notifyEnabled := true, aliasName := none },
    { trackingNumber := "C1", carrier := "kr.hanjin",
      status := some "Out for delivery", notifyEnabled := false,
      aliasName := some "shoes" } ]

/-- A concrete behaviour assignment: package `B1` fails at the adapter
boundary, every other package succeeds. -/
def sampleOracle : Package → PkgBehavior :=
  fun p =>
    if p.trackingNumber = "B1" then PkgBehavior.fails (some "connection timeout")
    else PkgBehavior.succeeds (some "In Transit")

/-- A single dispatchable, notify-enabled package with a previous status,
used to instantiate the change-detector theorem. -/
def statusChangePkg : Package :=
  { trackingNumber := "A1", carrier := "kr.cj", status := some "In Transit",
    notifyEnabled := true, aliasName := none }

/-! ## Theorems -/

/-- **C3**: for every input whose normalized form is shorter than 5 characters,
`detect_carrier` returns `carrier = None`, `confidence = "none"` with the
validation error set — and this holds for *every* registry, i.e. no pattern is
ever tried against the input. -/
theorem detect_carrier_short_input (registry : List CarrierRule) (tn : String)
    (h : (normalizeTrackingNumber tn).length < 5) :
    detectCarrier registry tn =
      { carrier := none, confidence := "none", patternMatched := none,
        trackingNumber := tn,
        error := some "Tracking number too short (minimum 5 characters)" } := by
  simp [detectCarrier, h]

/-- Witness for C3 at the concrete input `"ab"`. -/
theorem detect_carrier_short_input_witness :
    (normalizeTrackingNumber "ab").length < 5 ∧
    detectCarrier CARRIER_PATTERNS "ab" =
      { carrier := none, confidence := "none", patternMatched := none,
        trackingNumber := "ab",
        error := some "Tracking number too short (minimum 5 characters)" } :=
  ⟨by decide, detect_carrier_short_input CARRIER_PATTERNS "ab" (by decide)⟩

/-- **C4**: for every successful classification, the confidence of the result is
exactly: `"high"` if the winning rule's priority is ≥ 9 and the winning
pattern's kind is prefix or suffix; otherwise `"medium"` if priority ≥ 5 or the
kind is prefix; otherwise `"low"`. -/
theorem detect_carrier_confidence (registry : List CarrierRule) (tn : String)
    (rule : CarrierRule) (pat : MatchPattern)
    (h5 : ¬ (normalizeTrackingNumber tn).length < 5)
    (hm : firstMatchPair (normalizeTrackingNumber tn) (sortRules registry) =
      some (rule, pat)) :
    (detectCarrier registry tn).confidence =
      if 9 ≤ rule.priority ∧ (pat.type = "prefix" ∨ pat.type = "suffix") then "high"
      else if 5 ≤ rule.priority ∨ pat.type = "prefix" then "medium"
      else "low" := by
  simp only [detectCarrier, h5, if_false, hm]
  unfold determineConfidence
  split_ifs <;> first | rfl | tauto

/-- Witness for C4: `"EN123456789JP"` wins with the Japan Post suffix rule at
priority 10, hence `"high"`. -/
theorem detect_carrier_confidence_witness :
    (¬ (normalizeTrackingNumber "EN123456789JP").length < 5) ∧
    firstMatchPair (normalizeTrackingNumber "EN123456789JP")
        (sortRules CARRIER_PATTERNS) =
      some (CARRIER_PATTERNS.get ⟨0, by decide⟩,
        (CARRIER_PATTERNS.get ⟨0, by decide⟩).patterns.get ⟨0, by decide⟩) ∧
    (detectCarrier CARRIER_PATTERNS "EN123456789JP").confidence = "high" :=
  ⟨by decide, rfl,
    (detect_carrier_confidence CARRIER_PATTERNS "EN123456789JP" _ _
      (by decide) rfl).trans (by decide)⟩

/-- **C6**: dispatch with an unknown carrier prefix returns the deterministic
`success=False, "Unknown carrier prefix"` failure without consulting any
adapter oracle, and the international carriers without an implemented adapter
(FedEx, DHL) yield deterministic `success=False` "not yet implemented" results,
also independent of the oracles (no exception, no backend contact). -/
theorem dispatch_unknown_and_unimplemented (o o' : Oracles) (carrier tn : String)
    (h1 : startsWithChars "kr.".data carrier.data = false)
    (h2 : startsWithChars "global.".data carrier.data = false) :
    dispatchTrack o carrier tn =
      { success := false, error := some "Unknown carrier prefix",
        carrier := none, trackingNumber := none, status := none } ∧
    dispatchTrack o carrier tn = dispatchTrack o' carrier tn ∧
    trackGlobal o.glob "global.fedex" tn =
      { success := false, error := some "FedEx scraper not yet implemented",
        carrier := some "global.fedex", trackingNumber := some tn,
        status := none } ∧
    trackGlobal o.glob "global.dhl" tn =
      { success := false, error := some "DHL scraper not yet implemented",
        carrier := some "global.dhl", trackingNumber := some tn,
        status := none } ∧
    trackGlobal o.glob "global.fedex" tn = trackGlobal o'.glob "global.fedex" tn ∧
    trackGlobal o.glob "global.dhl" tn = trackGlobal o'.glob "global.dhl" tn := by
  refine ⟨?_, ?_, rfl, rfl, rfl, rfl⟩ <;> simp [dispatchTrack, h1, h2]

/-- Witness for C6 at the unknown carrier id `"xx.post"`. -/
theorem dispatch_unknown_and_unimplemented_witness :
    startsWithChars "kr.".data "xx.post".data = false ∧
    startsWithChars "global.".data "xx.post".data = false ∧
    dispatchTrack offlineOracles "xx.post" "1234567890" =
      { success := false, error := some "Unknown carrier prefix",
        carrier := none, trackingNumber := none, status := none } ∧
    trackGlobal offlineOracles.glob "global.fedex" "1234567890" =
      { success := false, error := some "FedEx scraper not yet implemented",
        carrier := some "global.fedex", trackingNumber := some "1234567890",
        status := none } :=
  ⟨by decide, by decide,
    (dispatch_unknown_and_unimplemented offlineOracles offlineOracles "xx.post"
      "1234567890" (by decide) (by decide)).1,
    (dispatch_unknown_and_unimplemented offlineOracles offlineOracles "xx.post"
      "1234567890" (by decide) (by decide)).2.2.1⟩

lemma mem_insertDesc {z x : CarrierRule} {l : List CarrierRule} :
    z ∈ insertDesc x l ↔ z = x ∨ z ∈ l := by
  induction l with
  | nil => simp [insertDesc]
  | cons y ys ih =>
    by_cases h : y.priority ≤ x.priority
    · simp [insertDesc, h]
    · simp only [insertDesc, if_neg h, List.mem_cons, ih]
      tauto

lemma sorted_insertDesc {x : CarrierRule} {l : List CarrierRule}
    (hl : l.Pairwise (fun a b => b.priority ≤ a.priority)) :
    (insertDesc x l).Pairwise (fun a b => b.priority ≤ a.priority) := by
  induction l with
  | nil => simp [insertDesc]
  | cons y ys ih =>
    rcases List.pairwise_cons.mp hl with ⟨hy, hys⟩
    by_cases h : y.priority ≤ x.priority
    · rw [insertDesc, if_pos h]
      refine List.pairwise_cons.mpr ⟨?_, hl⟩
      intro b hb
      rcases List.mem_cons.mp hb with rfl | hb
      · exact h
      · exact le_trans (hy b hb) h
    · rw [insertDesc, if_neg h]
      refine List.pairwise_cons.mpr ⟨?_, ih hys⟩
      intro b hb
      rcases mem_insertDesc.mp hb with rfl | hb
      · exact le_of_lt (lt_of_not_le h)
      · exact hy b hb

lemma sorted_sortRules (R : List CarrierRule) :
    (sortRules R).Pairwise (fun a b => b.priority ≤ a.priority) := by
  induction R with
  | nil => simp [sortRules]
  | cons x xs ih => exact sorted_insertDesc ih

lemma firstMatchPair_mem {s : String} {L : List CarrierRule}
    {m : CarrierRule} {p : MatchPattern}
    (h : firstMatchPair s L = some (m, p)) : m ∈ L := by
  induction L with
  | nil => simp [firstMatchPair] at h
  | cons r rs ih =>
    rw [firstMatchPair] at h
    cases hf : r.patterns.find? (fun q => q.test s) with
    | some q => rw [hf] at h; simp at h; simp [h.1]
    | none => rw [hf] at h; exact List.mem_cons_of_mem r (ih h)

lemma mergeCand_find_none {x : CarrierRule} {s : String}
    {o : Option (CarrierRule × MatchPattern)}
    (hfx : x.patterns.find? (fun p => p.test s) = none) :
    mergeCand x s o = o := by
  unfold mergeCand; rw [hfx]

lemma mergeCand_some_none {x : CarrierRule} {s : String} {p : MatchPattern}
    (hfx : x.patterns.find? (fun p => p.test s) = some p) :
    mergeCand x s none = some (x, p) := by
  unfold mergeCand; rw [hfx]

lemma mergeCand_some_some {x b : CarrierRule} {s : String} {p q : MatchPattern}
    (hfx : x.patterns.find? (fun p => p.test s) = some p) :
    mergeCand x s (some (b, q)) =
      if x.priority < b.priority then some (b, q) else some (x, p) := by
  unfold mergeCand; rw [hfx]

lemma firstMatchPair_cons_some {r : CarrierRule} {rs : List CarrierRule}
    {s : String} {p : MatchPattern}
    (hf : r.patterns.find? (fun p => p.test s) = some p) :
    firstMatchPair s (r :: rs) = some (r, p) := by
  rw [firstMatchPair, hf]

lemma firstMatchPair_cons_none {r : CarrierRule} {rs : List CarrierRule}
    {s : String}
    (hf : r.patterns.find? (fun p => p.test s) = none) :
    firstMatchPair s (r :: rs) = firstMatchPair s rs := by
  rw [firstMatchPair, hf]

lemma firstMatchPair_insertDesc {x : CarrierRule} {s : String}
    {L : List CarrierRule}
    (hL : L.Pairwise (fun a b => b.priority ≤ a.priority)) :
    firstMatchPair s (insertDesc x L) = mergeCand x s (firstMatchPair s L) := by
  induction L with
  | nil =>
    cases hfx : x.patterns.find? (fun p => p.test s) with
    | none =>
      rw [insertDesc, firstMatchPair_cons_none hfx, mergeCand_find_none hfx]
    | some p =>
      rw [insertDesc, firstMatchPair_cons_some hfx, firstMatchPair,
        mergeCand_some_none hfx]
  | cons y ys ih =>
    rcases List.pairwise_cons.mp hL with ⟨hy, hys⟩
    by_cases h : y.priority ≤ x.priority
    · rw [insertDesc, if_pos h]
      cases hfx : x.patterns.find? (fun p => p.test s) with
      | none =>
        rw [firstMatchPair_cons_none hfx, mergeCand_find_none hfx]
      | some p =>
        rw [firstMatchPair_cons_some hfx]
        cases ho : firstMatchPair s (y :: ys) with
        | none => rw [mergeCand_some_none hfx]
        | some bq =>
          obtain ⟨b, q⟩ := bq
          have hb : b ∈ y :: ys := firstMatchPair_mem ho
          have hble : b.priority ≤ x.priority := by
            rcases List.mem_cons.mp hb with rfl | hb2
            · exact h
            · exact le_trans (hy b hb2) h
          rw [mergeCand_some_some hfx, if_neg (not_lt.mpr hble)]
    · rw [insertDesc, if_neg h]
      cases hfy : y.patterns.find? (fun p => p.test s) with
      | some q =>
        rw [firstMatchPair_cons_some hfy, firstMatchPair_cons_some hfy]
        cases hfx : x.patterns.find? (fun p => p.test s) with
        | none => rw [mergeCand_find_none hfx]
        | some p => rw [mergeCand_some_some hfx, if_pos (lt_of_not_le h)]
      | none =>
        rw [firstMatchPair_cons_none hfy, firstMatchPair_cons_none hfy,
          ih hys]

lemma firstMatchPair_sortRules (s : String) (R : List CarrierRule) :
    firstMatchPair s (sortRules R) = bestMatch s R := by
  induction R with
  | nil => rfl
  | cons x xs ih =>
    rw [sortRules, firstMatchPair_insertDesc (sorted_sortRules xs), ih, bestMatch]

lemma bestMatch_none {s : String} {R : List CarrierRule}
    (h : bestMatch s R = none) : ∀ r ∈ R, ruleMatches r s = false := by
  induction R with
  | nil => simp
  | cons x xs ih =>
    rw [bestMatch] at h
    intro r hr
    cases hfx : x.patterns.find? (fun p => p.test s) with
    | some p =>
      rw [mergeCand] at h
      rw [hfx] at h
      cases hb : bestMatch s xs with
      | some bq =>
        obtain ⟨b, q⟩ := bq
        rw [hb] at h
        simp at h
        split at h <;> simp_all
      | none => rw [hb] at h; simp at h
    | none =>
      rw [mergeCand_find_none hfx] at h
      rcases List.mem_cons.mp hr with rfl | hr2
      · simp [ruleMatches, hfx]
      · exact ih h r hr2

lemma bestMatch_isSome {s : String} {R : List CarrierRule}
    (hex : ∃ r ∈ R, ruleMatches r s = true) : (bestMatch s R).isSome := by
  obtain ⟨r, hr, hm⟩ := hex
  cases hb : bestMatch s R with
  | some _ => rfl
  | none => exact absurd hm (by simp [bestMatch_none hb r hr])

lemma bestMatch_spec {s : String} {R : List CarrierRule}
    {m : CarrierRule} {p : MatchPattern}
    (h : bestMatch s R = some (m, p)) :
    ∃ (i : Nat) (hi : i < R.length),
      R.get ⟨i, hi⟩ = m ∧ ruleMatches m s = true ∧
      (∀ r ∈ R, ruleMatches r s = true → r.priority ≤ m.priority) ∧
      ∀ (j : Nat) (hj : j < R.length), j < i →
        ruleMatches (R.get ⟨j, hj⟩) s = true →
        (R.get ⟨j, hj⟩).priority < m.priority := by
  induction R generalizing m p with
  | nil => simp [bestMatch] at h
  | cons x xs ih =>
    rw [bestMatch] at h
    cases hfx : x.patterns.find? (fun q => q.test s) with
    | some p₀ =>
      cases hb : bestMatch s xs with
      | some bq =>
        obtain ⟨b, q⟩ := bq
        rw [hb, mergeCand_some_some hfx] at h
        obtain ⟨i, hi, hget, hbm, hmax, hfirst⟩ := ih hb
        by_cases hlt : x.priority < b.priority
        · rw [if_pos hlt] at h
          obtain ⟨rfl, rfl⟩ : b = m ∧ q = p := by
            have := Prod.mk.inj (Option.some.inj h); exact ⟨this.1, this.2⟩
          refine ⟨i + 1, by simpa using hi, by simpa using hget, hbm, ?_, ?_⟩
          · intro r hr hrm
            rcases List.mem_cons.mp hr with rfl | hr2
            · exact le_of_lt hlt
            · exact hmax r hr2 hrm
          · intro j hj hji hjm
            cases j with
            | zero => simpa using hlt
            | succ j2 =>
              have hj2 : j2 < xs.length := by simpa using hj
              have := hfirst j2 hj2 (Nat.lt_of_succ_lt_succ hji)
              simpa using this (by simpa using hjm)
        · rw [if_neg hlt] at h
          obtain ⟨rfl, rfl⟩ : x = m ∧ p₀ = p := by
            have := Prod.mk.inj (Option.some.inj h); exact ⟨this.1, this.2⟩
          refine ⟨0, by simp, by simp, by simp [ruleMatches, hfx], ?_, ?_⟩
          · intro r hr hrm
            rcases List.mem_cons.mp hr with rfl | hr2
            · exact le_refl _
            · exact le_trans (hmax r hr2 hrm) (not_lt.mp hlt)
          · intro j hj hji hjm
            exact absurd hji (Nat.not_lt_zero j)
      | none =>
        rw [hb, mergeCand_some_none hfx] at h
        obtain ⟨rfl, rfl⟩ : x = m ∧ p₀ = p := by
          have := Prod.mk.inj (Option.some.inj h); exact ⟨this.1, this.2⟩
        refine ⟨0, by simp, by simp, by simp [ruleMatches, hfx], ?_, ?_⟩
        · intro r hr hrm
          rcases List.mem_cons.mp hr with rfl | hr2
          · exact le_refl _
          · exact absurd hrm (by simp [bestMatch_none hb r hr2])
        · intro j hj hji hjm
          exact absurd hji (Nat.not_lt_zero j)
    | none =>
      rw [mergeCand_find_none hfx] at h
      obtain ⟨i, hi, hget, hbm, hmax, hfirst⟩ := ih h
      refine ⟨i + 1, by simpa using hi, by simpa using hget, hbm, ?_, ?_⟩
      · intro r hr hrm
        rcases List.mem_cons.mp hr with rfl | hr2
        · exact absurd hrm (by simp [ruleMatches, hfx])
        · exact hmax r hr2 hrm
      · intro j hj hji hjm
        cases j with
        | zero => exact absurd (by simpa using hjm) (by simp [ruleMatches, hfx])
        | succ j2 =>
          have hj2 : j2 < xs.length := by simpa using hj
          have := hfirst j2 hj2 (Nat.lt_of_succ_lt_succ hji)
          simpa using this (by simpa using hjm)

/-- **C2**: for every registry and every input that is long enough and matched
by at least one rule, `detect_carrier` returns the carrier of a matching rule
whose priority is maximal among all matching rules, and which is the earliest
registered rule among matching rules of that maximal priority (every
earlier-registered matching rule has strictly smaller priority). -/
theorem detect_carrier_selects_highest_priority (R : List CarrierRule)
    (tn : String)
    (h5 : ¬ (normalizeTrackingNumber tn).length < 5)
    (hex : ∃ r ∈ R, ruleMatches r (normalizeTrackingNumber tn) = true) :
    ∃ (i : Nat) (hi : i < R.length),
      ruleMatches (R.get ⟨i, hi⟩) (normalizeTrackingNumber tn) = true ∧
      (detectCarrier R tn).carrier = some (R.get ⟨i, hi⟩).carrier ∧
      (∀ r ∈ R, ruleMatches r (normalizeTrackingNumber tn) = true →
        r.priority ≤ (R.get ⟨i, hi⟩).priority) ∧
      ∀ (j : Nat) (hj : j < R.length), j < i →
        ruleMatches (R.get ⟨j, hj⟩) (normalizeTrackingNumber tn) = true →
        (R.get ⟨j, hj⟩).priority < (R.get ⟨i, hi⟩).priority := by
  obtain ⟨⟨m, p⟩, hbm⟩ :=
    Option.isSome_iff_exists.mp (bestMatch_isSome (s := normalizeTrackingNumber tn) hex)
  obtain ⟨i, hi, hget, hm, hmax, hfirst⟩ := bestMatch_spec hbm
  refine ⟨i, hi, by rw [hget]; exact hm, ?_, by rw [hget]; exact hmax,
    by rw [hget]; exact hfirst⟩
  simp only [detectCarrier, h5, if_false]
  rw [firstMatchPair_sortRules, hbm, hget]

/-- Witness for C2 at the concrete registry and input `"EN123456789JP"`. -/
theorem detect_carrier_selects_highest_priority_witness :
    (¬ (normalizeTrackingNumber "EN123456789JP").length < 5) ∧
    (∃ r ∈ CARRIER_PATTERNS,
      ruleMatches r (normalizeTrackingNumber "EN123456789JP") = true) ∧
    ∃ (i : Nat) (hi : i < CARRIER_PATTERNS.length),
      ruleMatches (CARRIER_PATTERNS.get ⟨i, hi⟩)
        (normalizeTrackingNumber "EN123456789JP") = true ∧
      (detectCarrier CARRIER_PATTERNS "EN123456789JP").carrier =
        some (CARRIER_PATTERNS.get ⟨i, hi⟩).carrier ∧
      (∀ r ∈ CARRIER_PATTERNS,
        ruleMatches r (normalizeTrackingNumber "EN123456789JP") = true →
        r.priority ≤ (CARRIER_PATTERNS.get ⟨i, hi⟩).priority) ∧
      ∀ (j : Nat) (hj : j < CARRIER_PATTERNS.length), j < i →
        ruleMatches (CARRIER_PATTERNS.get ⟨j, hj⟩)
          (normalizeTrackingNumber "EN123456789JP") = true →
        (CARRIER_PATTERNS.get ⟨j, hj⟩).priority <
          (CARRIER_PATTERNS.get ⟨i, hi⟩).priority :=
  ⟨by decide, ⟨CARRIER_PATTERNS.get ⟨0, by decide⟩, by
      refine ⟨List.get_mem .., ?_⟩
      decide⟩,
    detect_carrier_selects_highest_priority CARRIER_PATTERNS "EN123456789JP"
      (by decide)
      ⟨CARRIER_PATTERNS.get ⟨0, by decide⟩, List.get_mem .., by decide⟩⟩

/-- **C10**: for every input string, `detect_carrier` over the shipped registry
only ever reports one of the eight carriers below (or none).  In particular the
five later-registered Korean entries `kr.hanjin`, `kr.epost`, `kr.lotte`,
`kr.kdexp` and `kr.cjlogistics` are never returned: each carries only the
pattern `^\d{10,13}$` at priority 3, identical to the earlier-registered
`kr.cj`, so under the stable priority sort and first-match-wins scan `kr.cj`
always pre-empts them. -/
theorem detect_carrier_kr_duplicates_unreachable (tn : String) :
    (detectCarrier CARRIER_PATTERNS tn).carrier ∈
      ([none, some "global.jppost", some "global.ups", some "global.chinapost",
        some "global.fedex", some "global.dhl", some "global.sagawa",
        some "kr.cj"] : List (Option String)) := by
  by_cases hlen : (normalizeTrackingNumber tn).length < 5
  · simp [detectCarrier, hlen]
  · simp only [detectCarrier, hlen, if_false]
    have hsort : sortRules CARRIER_PATTERNS = CARRIER_PATTERNS := rfl
    rw [hsort]
    cases h1 : matchJppost (normalizeTrackingNumber tn) <;>
    cases h2 : matchUps (normalizeTrackingNumber tn) <;>
    cases h3 : matchChinapost (normalizeTrackingNumber tn) <;>
    cases h4 : matchFedex12 (normalizeTrackingNumber tn) <;>
    cases h5 : matchFedex15 (normalizeTrackingNumber tn) <;>
    cases h6 : matchDhl (normalizeTrackingNumber tn) <;>
    cases h7 : matchSagawa (normalizeTrackingNumber tn) <;>
    cases h8 : matchKrDomestic (normalizeTrackingNumber tn) <;>
    simp [CARRIER_PATTERNS, firstMatchPair, List.find?, h1, h2, h3, h4, h5, h6,
      h7, h8]

lemma router_counts (oracle : Package → PkgBehavior) (pkgs : List Package)
    (hknown : ∀ p ∈ pkgs, knownCarrier p = true) :
    routerSuccessCount oracle pkgs + routerFailedCount oracle pkgs = pkgs.length ∧
    routerFailedCount oracle pkgs =
      (pkgs.filter (fun p => behaviorFails (oracle p))).length ∧
    (routerErrors oracle pkgs).length =
      (pkgs.filter (fun p => behaviorFails (oracle p))).length ∧
    (routerErrors oracle pkgs).map Prod.fst =
      (pkgs.filter (fun p => behaviorFails (oracle p))).map Package.trackingNumber := by
  induction pkgs with
  | nil => simp [routerSuccessCount, routerFailedCount, routerErrors]
  | cons p ps ih =>
    have hp : knownCarrier p = true := hknown p (List.mem_cons_self p ps)
    have hps : ∀ q ∈ ps, knownCarrier q = true :=
      fun q hq => hknown q (List.mem_cons_of_mem p hq)
    obtain ⟨ih1, ih2, ih3, ih4⟩ := ih hps
    cases hb : oracle p with
    | succeeds st =>
      have hfail : behaviorFails (PkgBehavior.succeeds st) = false := rfl
      simp [routerSuccessCount, routerFailedCount, routerErrors, routerStep, hp,
        hb, List.filter_cons, hfail, ih2, ih3, ih4]
      omega
    | fails e =>
      have hfail : behaviorFails (PkgBehavior.fails e) = true := rfl
      simp [routerSuccessCount, routerFailedCount, routerErrors, routerStep, hp,
        hb, List.filter_cons, hfail, ih2, ih3, ih4]
      omega
    | raises m =>
      have hfail : behaviorFails (PkgBehavior.raises m) = true := rfl
      simp [routerSuccessCount, routerFailedCount, routerErrors, routerStep, hp,
        hb, List.filter_cons, hfail, ih2, ih3, ih4]
      omega

lemma routerClasses_length (oracle : Package → PkgBehavior) (pkgs : List Package) :
    (routerClasses oracle pkgs).length = pkgs.length := by
  induction pkgs with
  | nil => rfl
  | cons p ps ih => simp [routerClasses, ih]

/-- **C1**: for every list of `N` dispatchable packages of which `K` fail (at
the adapter boundary or via a raised exception), the endpoint's report has
`total = N`, `failed = K`, `success = N - K`, and an error list with exactly
`K` entries whose tracking numbers are the failing packages' tracking numbers
in processing order; every package is classified (length of the class list is
`N`), so a failure at package `i` never prevents package `i+1` from being
processed. -/
theorem refresh_all_report (oracle : Package → PkgBehavior) (pkgs : List Package)
    (K : Nat) (hknown : ∀ p ∈ pkgs, knownCarrier p = true)
    (hK : (pkgs.filter (fun p => behaviorFails (oracle p))).length = K) :
    (refreshAllRouter oracle pkgs).total = pkgs.length ∧
    (refreshAllRouter oracle pkgs).failed = K ∧
    (refreshAllRouter oracle pkgs).success = pkgs.length - K ∧
    (refreshAllRouter oracle pkgs).errors.length = K ∧
    (refreshAllRouter oracle pkgs).errors.map Prod.fst =
      (pkgs.filter (fun p => behaviorFails (oracle p))).map Package.trackingNumber ∧
    (routerClasses oracle pkgs).length = pkgs.length := by
  obtain ⟨h1, h2, h3, h4⟩ := router_counts oracle pkgs hknown
  refine ⟨rfl, ?_, ?_, ?_, ?_, routerClasses_length oracle pkgs⟩
  · simpa [refreshAllRouter] using h2.trans hK
  · show routerSuccessCount oracle pkgs = pkgs.length - K
    omega
  · simpa [refreshAllRouter] using h3.trans hK
  · simpa [refreshAllRouter] using h4

/-- Witness for C1: three packages, the second of which fails. -/
theorem refresh_all_report_witness :
    (∀ p ∈ samplePackages, knownCarrier p = true) ∧
    (samplePackages.filter (fun p => behaviorFails (sampleOracle p))).length = 1 ∧
    ((refreshAllRouter sampleOracle samplePackages).total = 3 ∧
      (refreshAllRouter sampleOracle samplePackages).failed = 1 ∧
      (refreshAllRouter sampleOracle samplePackages).success = 2 ∧
      (refreshAllRouter sampleOracle samplePackages).errors.map Prod.fst = ["B1"]) :=
  ⟨by decide, by decide, by
    obtain ⟨h1, h2, h3, h4, h5, h6⟩ :=
      refresh_all_report sampleOracle samplePackages 1 (by decide) (by decide)
    exact ⟨h1, h2, h3, by rw [h5]; decide⟩⟩

/-- **C5**: for every evaluated (dispatchable) package in a scheduled refresh
run: on adapter success the status write always happens; no notification is
emitted when the previous status is unset or equals the new status; and when a
notification fires it is exactly one of delivered / status-changed / error,
with delivered chosen exactly when the new status text matches the delivery
vocabulary (case-insensitive "delivered" or the Korean delivery-complete
term). -/
theorem scheduler_change_detector (p : Package) (b : PkgBehavior)
    (hknown : knownCarrier p = true) :
    (∀ st, b = .succeeds st →
      (schedulerStep p b).write = some (p.trackingNumber, st.getD "Unknown")) ∧
    (∀ st, b = .succeeds st →
      p.status = none ∨ p.status = some (st.getD "Unknown") →
      (schedulerStep p b).intent = none) ∧
    (∀ i, (schedulerStep p b).intent = some i →
      (∃ st, b = .succeeds st ∧ isDeliveredStatus (st.getD "Unknown") = true ∧
        i = .delivered p.trackingNumber p.carrier p.aliasName) ∨
      (∃ st oldStatus, b = .succeeds st ∧
        isDeliveredStatus (st.getD "Unknown") = false ∧
        p.status = some oldStatus ∧ oldStatus ≠ st.getD "Unknown" ∧
        i = .statusChanged p.trackingNumber p.carrier oldStatus (st.getD "Unknown")
          p.aliasName) ∨
      (∃ e, b = .fails e ∧ p.notifyEnabled = true ∧
        i = .errorNote p.trackingNumber p.carrier (e.getD "Unknown error")
          p.aliasName)) := by
  refine ⟨?_, ?_, ?_⟩
  · rintro st rfl
    simp [schedulerStep, hknown]
  · rintro st rfl hprev
    cases hs : p.status with
    | none => simp [schedulerStep, hknown, hs]
    | some old =>
      rcases hprev with h | h
      · rw [hs] at h; exact absurd h (by simp)
      · rw [hs] at h
        have : old = st.getD "Unknown" := by injection h
        simp [schedulerStep, hknown, hs, this]
  · intro i hi
    cases b with
    | succeeds st =>
      cases hs : p.status with
      | none => simp [schedulerStep, hknown, hs] at hi
      | some old =>
        simp only [schedulerStep, hknown, if_true] at hi
        rw [hs] at hi
        simp only at hi
        by_cases hcond : old ≠ "" ∧ old ≠ st.getD "Unknown" ∧ p.notifyEnabled
        · rw [if_pos hcond] at hi
          by_cases hdel : isDeliveredStatus (st.getD "Unknown") = true
          · rw [if_pos hdel] at hi
            left
            exact ⟨st, rfl, hdel, (Option.some.inj hi).symm⟩
          · rw [if_neg hdel] at hi
            right; left
            exact ⟨st, old, rfl, by simpa using hdel, rfl, hcond.2.1,
              (Option.some.inj hi).symm⟩
        · rw [if_neg hcond] at hi
          exact absurd hi (by simp)
    | fails e =>
      simp only [schedulerStep, hknown, if_true] at hi
      by_cases hn : p.notifyEnabled = true
      · rw [if_pos hn] at hi
        right; right
        exact ⟨e, rfl, hn, (Option.some.inj hi).symm⟩
      · rw [if_neg hn] at hi
        exact absurd hi (by simp)
    | raises m =>
      simp [schedulerStep, hknown] at hi

/-- Witness for C5: a dispatchable package whose status changes always gets
its status write. -/
theorem scheduler_change_detector_witness :
    knownCarrier statusChangePkg = true ∧
    (schedulerStep statusChangePkg
      (PkgBehavior.succeeds (some "Arrived"))).write = some ("A1", "Arrived") :=
  ⟨by decide,
    (scheduler_change_detector statusChangePkg
      (PkgBehavior.succeeds (some "Arrived")) (by decide)).1
      (some "Arrived") rfl⟩

lemma upperChar_idem (c : Char) : upperChar (upperChar c) = upperChar c := by
  by_cases h : 97 ≤ c.toNat ∧ c.toNat ≤ 122
  · have hc : upperChar c = Char.ofNat (c.toNat - 32) := by
      unfold upperChar; rw [if_pos h]
    rw [hc]
    obtain ⟨h1, h2⟩ := h
    generalize hg : c.toNat = n at h1 h2
    interval_cases n <;> decide
  · have hc : upperChar c = c := by unfold upperChar; rw [if_neg h]
    rw [hc, hc]

lemma upperChar_not_special (c : Char)
    (hws : isPyWhitespace c = true → c = ' ') :
    isPyWhitespace (upperChar c) = false ∨ upperChar c = ' ' := by
  by_cases h : 97 ≤ c.toNat ∧ c.toNat ≤ 122
  · have hc : upperChar c = Char.ofNat (c.toNat - 32) := by
      unfold upperChar; rw [if_pos h]
    rw [hc]
    obtain ⟨h1, h2⟩ := h
    generalize hg : c.toNat = n at h1 h2
    interval_cases n <;> simp [isPyWhitespace]
  · have hc : upperChar c = c := by unfold upperChar; rw [if_neg h]
    rw [hc]
    by_cases hw : isPyWhitespace c = true
    · exact Or.inr (hws hw)
    · exact Or.inl (Bool.not_eq_true _ ▸ hw)

lemma mem_dropWhile {c : Char} {p : Char → Bool} {l : List Char}
    (h : c ∈ l.dropWhile p) : c ∈ l := by
  induction l with
  | nil => exact absurd h (List.not_mem_nil c)
  | cons a as ih =>
    rw [List.dropWhile_cons] at h
    by_cases hp : p a = true
    · rw [if_pos hp] at h
      exact List.mem_cons_of_mem a (ih h)
    · rw [if_neg hp] at h
      exact h

lemma mem_pyStrip {c : Char} {l : List Char} (h : c ∈ pyStrip l) : c ∈ l := by
  unfold pyStrip at h
  rw [List.mem_reverse] at h
  have h1 := mem_dropWhile h
  rw [List.mem_reverse] at h1
  exact mem_dropWhile h1

lemma dropWhile_eq_self_of {l : List Char}
    (h : ∀ c ∈ l, isPyWhitespace c = false) : l.dropWhile isPyWhitespace = l := by
  cases l with
  | nil => rfl
  | cons a as =>
    rw [List.dropWhile_cons, h a (List.mem_cons_self a as)]
    simp

lemma pyStrip_eq_self {l : List Char}
    (h : ∀ c ∈ l, isPyWhitespace c = false) : pyStrip l = l := by
  unfold pyStrip
  rw [dropWhile_eq_self_of h, dropWhile_eq_self_of
    (fun c hc => h c (List.mem_reverse.mp hc))]
  exact List.reverse_reverse l

lemma map_upperChar_eq_self {l : List Char}
    (h : ∀ c ∈ l, upperChar c = c) : l.map upperChar = l := by
  induction l with
  | nil => rfl
  | cons a as ih =>
    rw [List.map_cons, h a (List.mem_cons_self a as),
      ih (fun c hc => h c (List.mem_cons_of_mem a hc))]


lemma normalize_data (x : String) (hx : ¬ x = "") :
    normalizeTrackingNumber x =
      ⟨(((pyStrip x.data).map upperChar).filter
          (fun c => c ≠ ' ')).filter (fun c => c ≠ '-')⟩ := by
  rw [normalizeTrackingNumber, if_neg hx]

/-- **C8 amended**: for every input containing no whitespace characters other
than the plain space, normalization is idempotent; moreover normalization is
case-, space- and hyphen-insensitive
(`normalize("en 387-436585jp") = normalize("EN387436585JP")`) and the empty
input normalizes to the empty string.  (Idempotence fails in general: see the
counterexample with an internal tab.) -/
theorem normalize_idempotent_amended (x : String)
    (hws : ∀ c ∈ x.data, isPyWhitespace c = true → c = ' ') :
    normalizeTrackingNumber (normalizeTrackingNumber x) =
      normalizeTrackingNumber x ∧
    normalizeTrackingNumber "en 387-436585jp" =
      normalizeTrackingNumber "EN387436585JP" ∧
    normalizeTrackingNumber "" = "" := by
  refine ⟨?_, by decide, rfl⟩
  by_cases hx : x = ""
  · subst hx; rfl
  · have hdata : (normalizeTrackingNumber x).data =
        (((pyStrip x.data).map upperChar).filter
          (fun c => c ≠ ' ')).filter (fun c => c ≠ '-') := by
      rw [normalize_data x hx]
    have hchar : ∀ c ∈ (normalizeTrackingNumber x).data,
        (∃ c₀ ∈ x.data, c = upperChar c₀) ∧ c ≠ ' ' ∧ c ≠ '-' := by
      intro c hc
      rw [hdata] at hc
      simp only [List.mem_filter, List.mem_map, decide_eq_true_eq] at hc
      obtain ⟨⟨⟨c₀, hc₀, rfl⟩, hsp⟩, hhy⟩ := hc
      exact ⟨⟨c₀, mem_pyStrip hc₀, rfl⟩, hsp, hhy⟩
    have hnws : ∀ c ∈ (normalizeTrackingNumber x).data,
        isPyWhitespace c = false := by
      intro c hc
      obtain ⟨⟨c₀, hc₀, rfl⟩, hsp, _⟩ := hchar c hc
      rcases upperChar_not_special c₀ (hws c₀ hc₀) with h | h
      · exact h
      · exact absurd h hsp
    have hupper : ∀ c ∈ (normalizeTrackingNumber x).data, upperChar c = c := by
      intro c hc
      obtain ⟨⟨c₀, _, rfl⟩, _, _⟩ := hchar c hc
      exact upperChar_idem c₀
    by_cases hy0 : normalizeTrackingNumber x = ""
    · rw [hy0]; rfl
    · have hf1 : List.filter (fun c => c ≠ ' ')
          ((normalizeTrackingNumber x).data) = (normalizeTrackingNumber x).data :=
        List.filter_eq_self.mpr (fun a ha => by
          simpa using (hchar a ha).2.1)
      have hf2 : List.filter (fun c => c ≠ '-')
          ((normalizeTrackingNumber x).data) = (normalizeTrackingNumber x).data :=
        List.filter_eq_self.mpr (fun a ha => by
          simpa using (hchar a ha).2.2)
      rw [normalize_data _ hy0, pyStrip_eq_self hnws,
        map_upperChar_eq_self hupper, hf1, hf2]

/-- **C8 counterexample**: normalization is not idempotent.  For the input
`"-\\ta-"` the first pass removes the hyphens and exposes a leading tab
(`"\\tA"`), which the second pass strips, giving `"A"`. -/
theorem normalize_not_idempotent :
    normalizeTrackingNumber "-\ta-" = "\tA" ∧
    normalizeTrackingNumber (normalizeTrackingNumber "-\ta-") = "A" ∧
    normalizeTrackingNumber (normalizeTrackingNumber "-\ta-") ≠
      normalizeTrackingNumber "-\ta-" := by decide

theorem normalize_idempotent_amended_witness :
    (∀ c ∈ ("en 387-436585jp" : String).data,
      isPyWhitespace c = true → c = ' ') ∧
    normalizeTrackingNumber (normalizeTrackingNumber "en 387-436585jp") =
      normalizeTrackingNumber "en 387-436585jp" :=
  ⟨by decide, (normalize_idempotent_amended "en 387-436585jp" (by decide)).1⟩

/-- **C9 amended**: the on-demand endpoint and the scheduled run perform the
same per-package status writes for every package list and behaviour
assignment; but the endpoint loop never emits notifications (only the
scheduled run does), and the two classify packages identically only when every
package has a dispatchable carrier prefix — the endpoint counts an
unknown-prefix package as failed with an error entry while the scheduled run
skips it without counting. -/
theorem refresh_paths_relation (oracle : Package → PkgBehavior)
    (pkgs : List Package) :
    routerWrites oracle pkgs = schedulerWrites oracle pkgs ∧
    routerIntents oracle pkgs = [] ∧
    ((∀ p ∈ pkgs, knownCarrier p = true) →
      routerClasses oracle pkgs = schedulerClasses oracle pkgs) := by
  induction pkgs with
  | nil => exact ⟨rfl, rfl, fun _ => rfl⟩
  | cons p ps ih =>
    obtain ⟨ih1, ih2, ih3⟩ := ih
    refine ⟨?_, ?_, ?_⟩
    · cases hp : knownCarrier p <;> cases hb : oracle p <;>
        simp [routerWrites, schedulerWrites, routerStep, schedulerStep, hp, hb, ih1]
    · cases hp : knownCarrier p <;> cases hb : oracle p <;>
        simp [routerIntents, routerStep, hp, hb, ih2]
    · intro hk
      have hp : knownCarrier p = true := hk p (List.mem_cons_self p ps)
      have hps : ∀ q ∈ ps, knownCarrier q = true :=
        fun q hq => hk q (List.mem_cons_of_mem p hq)
      cases hb : oracle p <;>
        simp [routerClasses, schedulerClasses, routerStep, schedulerStep, hp,
          hb, ih3 hps]

/-- **C9 counterexample**: on a two-package list (one unknown-prefix package,
one notify-enabled package whose status changes) the endpoint and the
scheduled run classify the first package differently (failed vs skipped) and
emit different notifications (none vs a status-changed intent), refuting the
claim that the two paths emit the same notifications and classify each package
identically. -/
theorem refresh_paths_differ :
    routerClasses (fun _ => PkgBehavior.succeeds (some "Arrived"))
        [{ trackingNumber := "U1", carrier := "xx.post", status := none,
           notifyEnabled := false, aliasName := none }, statusChangePkg] =
      [ItemClass.failedC, ItemClass.succeededC] ∧
    schedulerClasses (fun _ => PkgBehavior.succeeds (some "Arrived"))
        [{ trackingNumber := "U1", carrier := "xx.post", status := none,
           notifyEnabled := false, aliasName := none }, statusChangePkg] =
      [ItemClass.skippedC, ItemClass.succeededC] ∧
    routerIntents (fun _ => PkgBehavior.succeeds (some "Arrived"))
        [{ trackingNumber := "U1", carrier := "xx.post", status := none,
           notifyEnabled := false, aliasName := none }, statusChangePkg] = [] ∧
    schedulerIntents (fun _ => PkgBehavior.succeeds (some "Arrived"))
        [{ trackingNumber := "U1", carrier := "xx.post", status := none,
           notifyEnabled := false, aliasName := none }, statusChangePkg] =
      [Intent.statusChanged "A1" "kr.cj" "In Transit" "Arrived" none] := by
  refine ⟨?_, ?_, ?_, ?_⟩ <;> decide

/-- Witness for the C9 amended theorem at a concrete all-dispatchable package
list: classifications agree and the endpoint emits no notifications. -/
theorem refresh_paths_relation_witness :
    (∀ p ∈ samplePackages, knownCarrier p = true) ∧
    routerWrites sampleOracle samplePackages =
      schedulerWrites sampleOracle samplePackages ∧
    routerClasses sampleOracle samplePackages =
      schedulerClasses sampleOracle samplePackages :=
  ⟨by decide, (refresh_paths_relation sampleOracle samplePackages).1,
    (refresh_paths_relation sampleOracle samplePackages).2.2 (by decide)⟩

lemma applySchedOp_inv {s : SchedState} (h1 : s.jobs.length ≤ 1)
    (h2 : s.running = false → s.jobs = []) (op : SchedOp) :
    (applySchedOp s op).jobs.length ≤ 1 ∧
      ((applySchedOp s op).running = false → (applySchedOp s op).jobs = []) := by
  cases op with
  | start i =>
    by_cases hr : s.running = true
    · have hs : applySchedOp s (SchedOp.start i) = s := by
        simp [applySchedOp, startScheduler, hr]
      rw [hs]; exact ⟨h1, h2⟩
    · have hjobs : s.jobs = [] := h2 (by simpa using hr)
      simp [applySchedOp, startScheduler, hr, hjobs]
  | stop =>
    by_cases hr : s.running = true
    · simp [applySchedOp, stopScheduler, hr]
    · have hs : applySchedOp s SchedOp.stop = s := by
        simp [applySchedOp, stopScheduler, hr]
      rw [hs]; exact ⟨h1, h2⟩

lemma runSchedOps_inv (ops : List SchedOp) :
    (runSchedOps ops).jobs.length ≤ 1 ∧
      ((runSchedOps ops).running = false → (runSchedOps ops).jobs = []) := by
  suffices h : ∀ (s : SchedState), s.jobs.length ≤ 1 →
      (s.running = false → s.jobs = []) →
      (ops.foldl applySchedOp s).jobs.length ≤ 1 ∧
        ((ops.foldl applySchedOp s).running = false →
          (ops.foldl applySchedOp s).jobs = []) by
    exact h initialSchedState (by simp [initialSchedState])
      (by simp [initialSchedState])
  induction ops with
  | nil => intro s h1 h2; exact ⟨h1, h2⟩
  | cons op rest ih =>
    intro s h1 h2
    rw [List.foldl_cons]
    obtain ⟨g1, g2⟩ := applySchedOp_inv h1 h2 op
    exact ih (applySchedOp s op) g1 g2

/-- **C7 amended**: in every state reachable by a sequence of start/stop calls
at most one recurring job is installed; calling `start_scheduler` while the
scheduler is already running is a complete no-op (the guard
`if not scheduler.running` means the existing job is kept unchanged, not
replaced); `stop_scheduler` while stopped is a no-op; and after a stop the
status reports `running = false` with an empty job list (hence no next-fire
time). -/
theorem scheduler_state_machine (ops : List SchedOp) :
    (runSchedOps ops).jobs.length ≤ 1 ∧
    ((runSchedOps ops).running = true →
      ∀ i, startScheduler i (runSchedOps ops) = runSchedOps ops) ∧
    ((runSchedOps ops).running = false →
      stopScheduler (runSchedOps ops) = runSchedOps ops) ∧
    (getSchedulerStatus (stopScheduler (runSchedOps ops))).running = false ∧
    (getSchedulerStatus (stopScheduler (runSchedOps ops))).jobs = [] := by
  obtain ⟨h1, h2⟩ := runSchedOps_inv ops
  refine ⟨h1, ?_, ?_, ?_, ?_⟩
  · intro hr i
    simp [startScheduler, hr]
  · intro hr
    simp [stopScheduler, hr]
  · by_cases hr : (runSchedOps ops).running = true <;>
      simp [stopScheduler, hr, getSchedulerStatus]
  · by_cases hr : (runSchedOps ops).running = true
    · simp [stopScheduler, hr, getSchedulerStatus]
    · simp [stopScheduler, hr, getSchedulerStatus, h2 (by simpa using hr)]

/-- Witness for the C7 amended theorem after one `start(1)` call: the
scheduler is running, a second `start(5)` changes nothing, and stopping
reports not-running with no jobs. -/
theorem scheduler_state_machine_witness :
    (runSchedOps [SchedOp.start 1]).running = true ∧
    startScheduler 5 (runSchedOps [SchedOp.start 1]) =
      runSchedOps [SchedOp.start 1] ∧
    (getSchedulerStatus (stopScheduler (runSchedOps [SchedOp.start 1]))).running
      = false ∧
    (getSchedulerStatus (stopScheduler (runSchedOps [SchedOp.start 1]))).jobs
      = [] :=
  ⟨by decide, (scheduler_state_machine [SchedOp.start 1]).2.1 (by decide) 5,
    (scheduler_state_machine [SchedOp.start 1]).2.2.2.1,
    (scheduler_state_machine [SchedOp.start 1]).2.2.2.2⟩

/-- **C7 counterexample**: calling `start_scheduler` while already running does
*not* replace the installed job: after `start(1)` a further `start(5)` leaves
the state — including the installed job's interval — completely unchanged, so
the job's interval is still 1, not 5.  (The `replace_existing=True` of
`add_job` is unreachable while running because of the `if not
scheduler.running` guard.) -/
theorem scheduler_start_no_rearm :
    startScheduler 5 (startScheduler 1 initialSchedState) =
      startScheduler 1 initialSchedState ∧
    (startScheduler 5 (startScheduler 1 initialSchedState)).jobs.map
      Job.intervalHours = [1] ∧
    (startScheduler 5 (startScheduler 1 initialSchedState)).jobs.map
      Job.intervalHours ≠ [5] := by
  refine ⟨?_, ?_, ?_⟩ <;> decide
